import Mathlib

/-!
Verification of the Matching & Scoring Engine of the youth-policy
recommender (source: `backend/agents/agent3_matching.py`, class `Agent3`).

The engine is embedded shallowly:
* profile / program records become Lean structures; dictionary fields that
  the code reads with `.get(key, default)` become plain or `Option` fields
  (for the list-valued fields `target_regions` / `target_employment`, the
  empty list models both an absent key and an explicit `None`, since the
  code treats all of these identically through `if not xs`);
* scores are rationals (`ℚ`), ages / incomes are integers (`ℤ`);
* `datetime.now()` becomes an explicit `PyDateTime` argument; the ranking
  pass takes a `clock : ℕ → PyDateTime` giving the date read while program
  number `i` is scored, which models the fact that the Python code calls
  `datetime.now()` anew inside each per-program deadline check;
* the regular-expression searches of the source are embedded as
  position-by-position matchers over `List Char` with the same
  leftmost-match, greedy semantics (digits are modelled as ASCII digits);
* Python's `round(x, 1)` is modelled as round-half-up on rationals;
* Python's stable `list.sort` is modelled by `List.insertionSort`, which
  has the same stable ascending semantics for a total preorder.
All definitions are computable so that every concrete witness below is
checked by evaluation inside the kernel.
-/

namespace Agent3

/-! ### Basic character and string helpers (Python `in`, `strip`, `lower`, `str`) -/

/-- ASCII whitespace, the relevant fragment of Python's `\s` and `str.strip`. -/
def pyIsSpace (c : Char) : Bool :=
  c = ' ' || c = '\t' || c = '\n' || c = '\r' || c = '\x0b' || c = '\x0c'

/-- Substring containment on character lists; `listContains l pat` is Python's
`pat in l`. -/
def listContains : List Char → List Char → Bool
  | [], pat => pat.isEmpty
  | l@(_ :: rest), pat => pat.isPrefixOf l || listContains rest pat

/-- Python's `pat in s` for strings. -/
def strContains (s pat : String) : Bool :=
  listContains s.toList pat.toList

/-- ASCII lowering, the relevant fragment of Python's `str.lower` (the strings
the engine lowers are Korean/ASCII, and Korean has no case). -/
def lowerChar (c : Char) : Char :=
  if 65 ≤ c.toNat ∧ c.toNat ≤ 90 then Char.ofNat (c.toNat + 32) else c

/-- Python's `str.strip()`. -/
def pyStrip (cs : List Char) : List Char :=
  ((cs.dropWhile pyIsSpace).reverse.dropWhile pyIsSpace).reverse

/-- Numeric value of a list of ASCII digits (Python `int` on a digit string). -/
def digitsVal (ds : List Char) : ℕ :=
  ds.foldl (fun a c => 10 * a + (c.toNat - 48)) 0

/-- Decimal digits of `n`, most significant first; `fuel` bounds the recursion
and any `fuel > n` is enough. -/
def natDigitsAux : ℕ → ℕ → List Char
  | 0, _ => []
  | f + 1, n => if n = 0 then [] else natDigitsAux f (n / 10) ++ [Char.ofNat (48 + n % 10)]

/-- Decimal digit characters of `n` (Python `str` on a nonnegative int). -/
def natChars (n : ℕ) : List Char :=
  if n = 0 then ['0'] else natDigitsAux (n + 1) n

/-- Python `str(n)` for a natural number. -/
def natStr (n : ℕ) : String :=
  ⟨natChars n⟩

/-- Python `str(i)` for an integer. -/
def intStr (i : ℤ) : String :=
  if i < 0 then ⟨'-' :: natChars i.natAbs⟩ else ⟨natChars i.natAbs⟩

/-- Chunks of at most three characters, used from the least-significant end to
model Python's `format(n, ',')` digit grouping. -/
def chunk3 : List Char → List (List Char)
  | [] => []
  | a :: b :: c :: rest => [a, b, c] :: chunk3 rest
  | l => [l]

/-- Python's `f"{i:,}"`: decimal digits with `,` thousands separators. -/
def commaIntStr (i : ℤ) : String :=
  let groups := ((chunk3 (natChars i.natAbs).reverse).map List.reverse).reverse
  let core := String.intercalate "," (groups.map fun l => String.mk l)
  if i < 0 then "-" ++ core else core

/-! ### Dates (`datetime`) -/

/-- A point in time as the engine observes it: a proleptic-Gregorian calendar
date plus a fraction `tod` of the day elapsed (`datetime(y, m, d)` has
`tod = 0`). -/
structure PyDateTime where
  year : ℕ
  month : ℕ
  day : ℕ
  tod : ℚ
deriving DecidableEq, Repr

/-- Python's `<` on `datetime` values: lexicographic on the fields. -/
def dtLt (a b : PyDateTime) : Bool :=
  a.year < b.year || (a.year = b.year &&
    (a.month < b.month || (a.month = b.month &&
      (a.day < b.day || (a.day = b.day && a.tod < b.tod)))))

/-- Gregorian leap-year rule used by `datetime`. -/
def isLeapYear (y : ℕ) : Bool :=
  (y % 4 = 0 && y % 100 ≠ 0) || y % 400 = 0

/-- Length of month `m` in year `y` as validated by the `datetime` constructor. -/
def daysInMonth (y m : ℕ) : ℕ :=
  if m = 2 then (if isLeapYear y then 29 else 28)
  else if m = 4 || m = 6 || m = 9 || m = 11 then 30
  else 31

/-- The `datetime(y, m, d)` constructor succeeds exactly on these triples;
outside them it raises `ValueError`, which the deadline analyzer turns into
"not expired". -/
def validDate (y m d : ℕ) : Bool :=
  1 ≤ y && y ≤ 9999 && 1 ≤ m && m ≤ 12 && 1 ≤ d && d ≤ daysInMonth y m

/-- `datetime(y, m, d)`: midnight of the given day. -/
def mkDate (y m d : ℕ) : PyDateTime :=
  ⟨y, m, d, 0⟩

/-! ### Embedded regular-expression searches of `_is_deadline_expired` -/

/-- Exactly four ASCII digits (`\d{4}`), returning their value and the rest. -/
def matchD4 : List Char → Option (ℕ × List Char)
  | a :: b :: c :: d :: rest =>
    if a.isDigit && b.isDigit && c.isDigit && d.isDigit then
      some (digitsVal [a, b, c, d], rest)
    else none
  | _ => none

/-- One or two ASCII digits (`\d{1,2}`), all alternatives in greedy order, so
that a backtracking search can be modelled by taking the first alternative
whose continuation succeeds. -/
def matchD12 : List Char → List (ℕ × List Char)
  | [] => []
  | [a] => if a.isDigit then [(digitsVal [a], [])] else []
  | a :: b :: rest =>
    if a.isDigit && b.isDigit then
      [(digitsVal [a, b], rest), (digitsVal [a], b :: rest)]
    else if a.isDigit then [(digitsVal [a], b :: rest)]
    else []

/-- The separator class `[-./]` of the first date pattern. -/
def sepOk (c : Char) : Bool :=
  c = '-' || c = '.' || c = '/'

/-- One literal character of a pattern. -/
def expectChar (c : Char) : List Char → Option (List Char)
  | x :: rest => if x = c then some rest else none
  | [] => none

/-- Attempt the pattern `(\d{4})[-./](\d{1,2})[-./](\d{1,2})` at the start of
`cs`. -/
def tryDatePat1At (cs : List Char) : Option (ℕ × ℕ × ℕ) :=
  match matchD4 cs with
  | none => none
  | some (y, r1) =>
    match r1 with
    | [] => none
    | s1 :: r2 =>
      if sepOk s1 then
        (matchD12 r2).findSome? fun md =>
          match md.2 with
          | [] => none
          | s2 :: r4 =>
            if sepOk s2 then
              (matchD12 r4).findSome? fun dd => some (y, md.1, dd.1)
            else none
      else none

/-- Attempt the pattern `(\d{4})년\s*(\d{1,2})월\s*(\d{1,2})일` at the start of
`cs`. -/
def tryDatePat2At (cs : List Char) : Option (ℕ × ℕ × ℕ) :=
  match matchD4 cs with
  | none => none
  | some (y, r1) =>
    match expectChar '년' r1 with
    | none => none
    | some r2 =>
      (matchD12 (r2.dropWhile pyIsSpace)).findSome? fun md =>
        match expectChar '월' md.2 with
        | none => none
        | some r4 =>
          (matchD12 (r4.dropWhile pyIsSpace)).findSome? fun dd =>
            match expectChar '일' dd.2 with
            | none => none
            | some _ => some (y, md.1, dd.1)

/-- Attempt the pattern `(\d{4})년?\s*(\d{1,2})월` at the start of `cs`; the
optional `년` is greedy, so the consuming alternative is tried first. -/
def tryMonthPatAt (cs : List Char) : Option (ℕ × ℕ) :=
  match matchD4 cs with
  | none => none
  | some (y, r1) =>
    let alts : List (List Char) :=
      match r1 with
      | '년' :: r => [r, '년' :: r]
      | _ => [r1]
    alts.findSome? fun r2 =>
      (matchD12 (r2.dropWhile pyIsSpace)).findSome? fun md =>
        match expectChar '월' md.2 with
        | none => none
        | some _ => some (y, md.1)

/-- Attempt the pattern `(\d{4})년` at the start of `cs`. -/
def tryYearPatAt (cs : List Char) : Option ℕ :=
  match matchD4 cs with
  | none => none
  | some (y, r1) =>
    match expectChar '년' r1 with
    | none => none
    | some _ => some y

/-- `re.search` driver: try the position matcher at every start position from
the left and keep the first success. -/
def searchAux {β : Type} (tryAt : List Char → Option β) : List Char → Option β
  | [] => tryAt []
  | l@(_ :: rest) =>
    match tryAt l with
    | some r => some r
    | none => searchAux tryAt rest

/-! ### Deadline Analyzer (`_is_deadline_far`, `_is_deadline_soon`,
`_is_deadline_expired`) -/

/-- The "ongoing recruitment" keywords of `_is_deadline_expired`, in source
order. -/
def ongoingKeywords : List String :=
  ["상시", "수시", "연중", "계속", "예산 소진시", "예산소진시", "예산소진시까지"]

/-- `_is_deadline_far`: the heuristic "at least six months away" check, which
only looks for the literal year strings. -/
def is_deadline_far (deadline : String) : Bool :=
  strContains deadline "2024" || strContains deadline "2025"

/-- `_is_deadline_soon`: the deadline text contains the decimal string of the
current month (`str(datetime.now().month) in deadline`); `now` is the value
read from the clock during this check. -/
def is_deadline_soon (now : PyDateTime) (deadline : String) : Bool :=
  strContains deadline (natStr now.month)

/-- `_is_deadline_expired`: ongoing keywords are never expired; otherwise the
date patterns are tried in source order on the raw text, an invalid recovered
date (a `ValueError` from `datetime`) yields `false` through the `except`
clause, and an unmatched text defaults to `false`.  `now` is the value read
from the clock (`datetime.now()`) during this check. -/
def is_deadline_expired (now : PyDateTime) (deadline : String) : Bool :=
  if deadline = "" then false
  else
    let dlLower := pyStrip (deadline.toList.map lowerChar)
    if ongoingKeywords.any (fun k => listContains dlLower k.toList) then false
    else
      let cs := deadline.toList
      match searchAux tryDatePat1At cs with
      | some (y, m, d) => if validDate y m d then dtLt (mkDate y m d) now else false
      | none =>
        match searchAux tryDatePat2At cs with
        | some (y, m, d) => if validDate y m d then dtLt (mkDate y m d) now else false
        | none =>
          match searchAux tryMonthPatAt cs with
          | some (y, m) =>
            let dd := if m = 12 then mkDate (y + 1) 1 1 else mkDate y (m + 1) 1
            if validDate dd.year dd.month dd.day then dtLt dd now else false
          | none =>
            match searchAux tryYearPatAt cs with
            | some y =>
              if validDate (y + 1) 1 1 then dtLt (mkDate (y + 1) 1 1) now else false
            | none => false

/-! ### Amount Extractor (`_extract_amount_from_text`) -/

/-- The capture group `(\d+,?\d*)`: greedy digits, an optional comma, greedy
digits, returning the captured characters and the rest.  Dropping characters
from the end of the capture can never expose a unit suffix, so the greedy
parse agrees with the backtracking regex engine. -/
def numGroup (cs : List Char) : Option (List Char × List Char) :=
  let ds := cs.takeWhile Char.isDigit
  if ds.isEmpty then none
  else
    let r := cs.drop ds.length
    match r with
    | ',' :: r2 =>
      let ds2 := r2.takeWhile Char.isDigit
      some (ds ++ ',' :: ds2, r2.drop ds2.length)
    | _ => some (ds, r)

/-- Attempt one amount pattern, `pre` `\s*` `(\d+,?\d*)` `\s*` `suf`, at the
start of `cs` (the leading `\s*` is present exactly when the source pattern
has a literal prefix). -/
def tryAmtAt (pre suf : List Char) (cs : List Char) : Option (List Char) :=
  if pre.isPrefixOf cs then
    let r0 := cs.drop pre.length
    let r1 := if pre.isEmpty then r0 else r0.dropWhile pyIsSpace
    match numGroup r1 with
    | some (g, r2) => if suf.isPrefixOf (r2.dropWhile pyIsSpace) then some g else none
    | none => none
  else none

/-- `re.findall(pattern, text)[0]` for one amount pattern: the leftmost match
of the capture group. -/
def searchAmt (pre suf : String) (cs : List Char) : Option (List Char) :=
  searchAux (tryAmtAt pre.toList suf.toList) cs

/-- `_extract_amount_from_text`: the five patterns in source order, the first
matching pattern's first capture with commas stripped, then the unit
multiplier chosen by which unit token occurs anywhere in the text; `0` when
no pattern matches. -/
def extract_amount_from_text (text : String) : ℤ :=
  let cs := text.toList
  let firstCapture :=
    match searchAmt "" "만원" cs with
    | some g => some g
    | none =>
      match searchAmt "" "억" cs with
      | some g => some g
      | none =>
        match searchAmt "최대" "만원" cs with
        | some g => some g
        | none =>
          match searchAmt "월" "만원" cs with
          | some g => some g
          | none => searchAmt "" "천만원" cs
  match firstCapture with
  | none => 0
  | some g =>
    let amount : ℤ := (digitsVal (g.filter fun c => c ≠ ',') : ℤ)
    if strContains text "억" then amount * 10000
    else if strContains text "천만원" then amount * 1000
    else if strContains text "월" then amount * 12
    else amount

/-! ### Score weights (`score_weights`, `condition_weights`) -/

def score_weights_condition_match : ℚ := 40
def score_weights_benefit_size : ℚ := 30
def score_weights_ease_of_application : ℚ := 30
def condition_weights_age : ℚ := 10
def condition_weights_region : ℚ := 10
def condition_weights_income : ℚ := 10
def condition_weights_employment : ℚ := 10

/-! ### Condition matchers -/

/-- Effective lower age bound: `policy_age_min if policy_age_min and
policy_age_min > 0 else 0`. -/
def age_p_min : Option ℤ → ℤ
  | some v => if v > 0 then v else 0
  | none => 0

/-- Effective upper age bound: `policy_age_max if policy_age_max and
policy_age_max > 0 else 100`. -/
def age_p_max : Option ℤ → ℤ
  | some v => if v > 0 then v else 100
  | none => 100

/-- `check_age_match`: eligibility flag and 0–10 sub-score for the age
condition.  The `try` body is total, so the lenient `except` branch of the
source is unreachable and has no counterpart here. -/
def check_age_match (user_age : ℤ) (policy_age_min policy_age_max : Option ℤ) :
    Bool × ℚ :=
  let p_min := age_p_min policy_age_min
  let p_max := age_p_max policy_age_max
  if p_min = 0 ∧ p_max = 100 then (true, condition_weights_age)
  else if p_min ≤ user_age ∧ user_age ≤ p_max then
    let age_range := p_max - p_min
    if age_range = 0 then (true, condition_weights_age)
    else
      let center : ℚ := ((p_min : ℚ) + (p_max : ℚ)) / 2
      let distance_from_center : ℚ := |(user_age : ℚ) - center|
      let max_distance0 : ℚ := (age_range : ℚ) / 2
      let max_distance : ℚ := if max_distance0 = 0 then 1 else max_distance0
      let score_ratio : ℚ := 1 - distance_from_center / max_distance
      (true, condition_weights_age * max score_ratio (1 / 2))
  else (false, 0)

/-- The city/district-to-province table of `check_region_match.normalize`, in
source order (the Python dict preserves insertion order). -/
def region_map : List (String × String) :=
  [("서울", "서울"), ("서울특별시", "서울"),
   ("경기", "경기"), ("경기도", "경기"),
   ("인천", "인천"), ("인천광역시", "인천"),
   ("부산", "부산"), ("부산광역시", "부산"), ("부산진구", "부산"), ("연제구", "부산"), ("기장군", "부산"),
   ("대구", "대구"), ("대구광역시", "대구"),
   ("광주", "광주"), ("광주광역시", "광주"),
   ("대전", "대전"), ("대전광역시", "대전"),
   ("울산", "울산"), ("울산광역시", "울산"),
   ("세종", "세종"), ("세종특별자치시", "세종"),
   ("강원", "강원"), ("강원도", "강원"), ("강원특별자치도", "강원"),
   ("충북", "충북"), ("충청북도", "충북"),
   ("충남", "충남"), ("충청남도", "충남"),
   ("전북", "전북"), ("전라북도", "전북"), ("전북특별자치도", "전북"),
   ("전남", "전남"), ("전라남도", "전남"),
   ("경북", "경북"), ("경상북도", "경북"),
   ("경남", "경남"), ("경상남도", "경남"),
   ("제주", "제주"), ("제주도", "제주"), ("제주특별자치도", "제주")]

/-- `normalize`: strip, exact table lookup, then first table key occurring as a
substring, else the input itself. -/
def normalize_region (region : String) : String :=
  let region : String := ⟨pyStrip region.toList⟩
  match region_map.find? (fun kv => kv.1 = region) with
  | some kv => kv.2
  | none =>
    match region_map.find? (fun kv => strContains region kv.1) with
    | some kv => kv.2
    | none => region

/-- `check_region_match`: eligibility flag and 0–10 sub-score for the region
condition.  The empty list models both an absent and a `None` region list. -/
def check_region_match (user_region : String) (policy_regions : List String) :
    Bool × ℚ :=
  if policy_regions = [] then (true, condition_weights_region)
  else if policy_regions.any (fun pr => strContains pr "전국") then
    (true, condition_weights_region)
  else if user_region = "" then (true, condition_weights_region * (1 / 2))
  else
    let normalized_user := normalize_region user_region
    match policy_regions.find? (fun pr => normalize_region pr = normalized_user) with
    | some _ =>
      let region_count := policy_regions.length
      if region_count = 1 then (true, condition_weights_region)
      else if region_count ≤ 3 then (true, condition_weights_region * (9 / 10))
      else (true, condition_weights_region * (8 / 10))
    | none => (false, 0)

/-- `check_income_match`: eligibility flag and 0–10 sub-score for the income
condition. -/
def check_income_match (user_income : ℤ) (policy_income_max : Option ℤ) :
    Bool × ℚ :=
  match policy_income_max with
  | none => (true, condition_weights_income)
  | some pmax =>
    if pmax = 0 then (true, condition_weights_income)
    else if user_income ≤ pmax then
      let income_ratio : ℚ := (user_income : ℚ) / (pmax : ℚ)
      if income_ratio ≤ 1 / 2 then (true, condition_weights_income)
      else if income_ratio ≤ 9 / 10 then (true, condition_weights_income * (9 / 10))
      else (true, condition_weights_income * (8 / 10))
    else (false, 0)

/-- `check_employment_match`: eligibility flag and 0–10 sub-score for the
employment condition. -/
def check_employment_match (user_employment : String) (policy_employment : List String) :
    Bool × ℚ :=
  if policy_employment = [] then (true, condition_weights_employment)
  else if policy_employment.contains user_employment then
    if policy_employment.length = 1 then (true, condition_weights_employment)
    else (true, condition_weights_employment * (9 / 10))
  else (false, 0)

/-! ### Data model -/

/-- The validated user profile as read by the engine (`user_profile.get` with
defaults `0` / `""`; the optional `interest` field is never read by the
engine). -/
structure UserProfile where
  age : ℤ
  region : String
  income : ℤ
  employment : String
deriving DecidableEq, Repr

/-- One program record, with exactly the fields the engine reads.  `Option`
fields model an absent key or an explicit `None` (they are read through
`.get`); the two list fields model both by `[]`, and `requirements = none`
models a value that is not a list, which the source's `isinstance` check
skips. -/
structure Policy where
  policy_id : String
  title : String
  category : String
  target_age_min : Option ℤ
  target_age_max : Option ℤ
  target_regions : List String
  target_employment : List String
  target_income_max : Option ℤ
  benefit : String
  budget_max : Option ℤ
  deadline : Option String
  application_url : Option String
  website_url : Option String
  requirements : Option (List String)
deriving DecidableEq, Repr

/-- The `MatchingResult` record produced for one matched program. -/
structure MatchingResult where
  policy_id : String
  title : String
  category : String
  score : ℚ
  match_reasons : List String
  benefit_summary : String
  deadline : Option String
deriving DecidableEq, Repr

/-! ### Benefit-size score (`calculate_benefit_score`) -/

/-- `calculate_benefit_score`: a positive authoritative `budget_max` wins,
otherwise the extractor runs on the benefit text; the amount is mapped through
the fixed tier table, with 30% of the 30-point budget as the no-amount floor. -/
def calculate_benefit_score (benefit : String) (budget_max : Option ℤ) : ℚ :=
  let max_score := score_weights_benefit_size
  let amount : ℤ :=
    match budget_max with
    | some b => if b > 0 then b else extract_amount_from_text benefit
    | none => extract_amount_from_text benefit
  if amount = 0 then max_score * (3 / 10)
  else if amount ≥ 3000 then max_score
  else if amount ≥ 2000 then max_score * (9 / 10)
  else if amount ≥ 1000 then max_score * (8 / 10)
  else if amount ≥ 500 then max_score * (7 / 10)
  else if amount ≥ 200 then max_score * (6 / 10)
  else if amount ≥ 100 then max_score * (5 / 10)
  else if amount ≥ 50 then max_score * (4 / 10)
  else max_score * (3 / 10)

/-! ### Application-ease score (`calculate_ease_score`) -/

/-- The application-URL block of `calculate_ease_score`:
`policy.get("application_url") or policy.get("website_url", "")`, then the
non-empty test awards `max_score / 3`. -/
def ease_url_component (p : Policy) : ℚ :=
  let application_url : String :=
    match p.application_url with
    | some s => if s ≠ "" then s else p.website_url.getD ""
    | none => p.website_url.getD ""
  if application_url ≠ "" then score_weights_ease_of_application / 3 else 0

/-- The deadline-urgency block of `calculate_ease_score`: nothing for an empty
deadline text, full sub-budget for an ongoing keyword, then the far / soon /
default tiers. -/
def ease_deadline_component (now : PyDateTime) (p : Policy) : ℚ :=
  let deadline := p.deadline.getD ""
  if deadline = "" then 0
  else if ["상시", "연중", "수시"].any (fun w => strContains deadline w) then
    score_weights_ease_of_application / 3
  else if is_deadline_far deadline then
    score_weights_ease_of_application / 3 * (8 / 10)
  else if is_deadline_soon now deadline then
    score_weights_ease_of_application / 3 * (4 / 10)
  else score_weights_ease_of_application / 3 * (6 / 10)

/-- The requirement-count block of `calculate_ease_score`; `none` models a
`requirements` value that fails the `isinstance(…, list)` test. -/
def ease_requirements_component (p : Policy) : ℚ :=
  match p.requirements with
  | none => 0
  | some reqs =>
    let req_count := reqs.length
    if req_count ≤ 2 then score_weights_ease_of_application / 3
    else if req_count ≤ 4 then score_weights_ease_of_application / 3 * (8 / 10)
    else if req_count ≤ 6 then score_weights_ease_of_application / 3 * (6 / 10)
    else score_weights_ease_of_application / 3 * (4 / 10)

/-- `calculate_ease_score`: the three 10-point blocks, clamped by the final
`min(total_score, max_score)`. -/
def calculate_ease_score (now : PyDateTime) (p : Policy) : ℚ :=
  min (ease_url_component p + ease_deadline_component now p + ease_requirements_component p)
    score_weights_ease_of_application

/-! ### Score Aggregator (`calculate_score`) -/

/-- Python's `round(x, 1)`, modelled as round-half-up to one decimal place. -/
def round1 (q : ℚ) : ℚ :=
  (⌊q * 10 + 1 / 2⌋ : ℚ) / 10

/-- An age bound rendered for the age reason string: `value or '제한없음'`. -/
def age_bound_str : Option ℤ → String
  | some v => if v = 0 then "제한없음" else intStr v
  | none => "제한없음"

/-- The age match reason f-string. -/
def age_reason_str (p : Policy) : String :=
  "나이 조건 부합 (" ++ age_bound_str p.target_age_min ++ "-" ++
    age_bound_str p.target_age_max ++ "세)"

/-- The region match reason f-string
(`", ".join(policy.get("target_regions", []) or ["전국"])`). -/
def region_reason_str (p : Policy) : String :=
  let regions := if p.target_regions = [] then ["전국"] else p.target_regions
  "지역 조건 부합 (" ++ String.intercalate ", " regions ++ ")"

/-- The income reason: the f-string with comma-grouped ceiling when
`target_income_max` is truthy, the no-limit text otherwise. -/
def income_reason_str (p : Policy) : String :=
  match p.target_income_max with
  | some v => if v = 0 then "소득 제한 없음"
    else "소득 조건 부합 (" ++ commaIntStr v ++ "만원 이하)"
  | none => "소득 제한 없음"

/-- The employment match reason f-string. -/
def employment_reason_str (p : Policy) : String :=
  "고용 상태 적합 (" ++ String.intercalate ", " p.target_employment ++ ")"

/-- The qualitative benefit reasons appended after the benefit block. -/
def benefit_reasons (benefit_score : ℚ) : List String :=
  if benefit_score > 20 then ["높은 지원 혜택"]
  else if benefit_score > 10 then ["적정 지원 혜택"]
  else []

/-- The qualitative ease reasons appended after the ease block. -/
def ease_reasons (ease_score : ℚ) : List String :=
  if ease_score > 20 then ["신청 절차 간편"]
  else if ease_score > 15 then ["신청 절차 보통"]
  else []

/-- `calculate_score`: the full aggregation for one (profile, program) pair.
`now` is the date read from the clock while this pair is scored.  The three
hard gates return the terminal scores of the source; otherwise the soft
income/employment contributions, the benefit score and the ease score are
summed and rounded to one decimal. -/
def calculate_score (now : PyDateTime) (up : UserProfile) (p : Policy) :
    ℚ × List String :=
  if is_deadline_expired now (p.deadline.getD "") then (0, ["❌ 신청 마감됨"])
  else if (check_age_match up.age p.target_age_min p.target_age_max).1 = false then
    (0, ["나이 조건 불일치"])
  else if (check_region_match up.region p.target_regions).1 = false then
    (0, ["지역 조건 불일치"])
  else
    (round1 ((check_age_match up.age p.target_age_min p.target_age_max).2
        + (check_region_match up.region p.target_regions).2
        + (if (check_income_match up.income p.target_income_max).1 then
            (check_income_match up.income p.target_income_max).2 else 0)
        + (if (check_employment_match up.employment p.target_employment).1 then
            (check_employment_match up.employment p.target_employment).2 else 0)
        + calculate_benefit_score p.benefit p.budget_max
        + calculate_ease_score now p),
      [age_reason_str p, region_reason_str p]
        ++ (if (check_income_match up.income p.target_income_max).1 then
              [income_reason_str p] else [])
        ++ (if (check_employment_match up.employment p.target_employment).1 then
              [employment_reason_str p] else [])
        ++ benefit_reasons (calculate_benefit_score p.benefit p.budget_max)
        ++ ease_reasons (calculate_ease_score now p))

/-! ### Ranker/Selector (`match_policies`) -/

/-- Lexicographic `≤` on character lists by code point: Python's string
comparison. -/
def lexLe : List Char → List Char → Bool
  | [], _ => true
  | _ :: _, [] => false
  | c :: cs, d :: ds =>
    if c.toNat < d.toNat then true
    else if d.toNat < c.toNat then false
    else lexLe cs ds

/-- The sort key order of `match_policies`: ascending in the Python tuple
`(-score, deadline or "")`, i.e. descending score with lexically ascending
deadline text (missing deadline as `""`) among ties. -/
def result_le (a b : MatchingResult) : Bool :=
  if b.score < a.score then true
  else if a.score < b.score then false
  else lexLe (a.deadline.getD "").toList (b.deadline.getD "").toList

/-- The `MatchingResult` constructed for a kept policy. -/
def mk_result (p : Policy) (sr : ℚ × List String) : MatchingResult :=
  ⟨p.policy_id, p.title, p.category, sr.1, sr.2, p.benefit, p.deadline⟩

/-- The unsorted list of results meeting `min_score`, in catalog order;
program number `i` is scored against the clock value read during its
evaluation. -/
def candidate_results (clock : ℕ → PyDateTime) (up : UserProfile)
    (policies : List Policy) (min_score : ℚ) : List MatchingResult :=
  policies.enum.filterMap fun ip =>
    let sr := calculate_score (clock ip.1) up ip.2
    if min_score ≤ sr.1 then some (mk_result ip.2 sr) else none

/-- Default of the `min_score` parameter of `match_policies`. -/
def default_min_score : ℚ := 40

/-- Default of the `max_results` parameter of `match_policies`. -/
def default_max_results : ℕ := 10

/-- `match_policies`: score every program, keep the ones at or above
`min_score`, stable-sort by the key `(-score, deadline or "")` and truncate to
`max_results`.  `List.insertionSort` is a stable ascending sort and therefore
a faithful model of Python's `list.sort`. -/
def match_policies (clock : ℕ → PyDateTime) (up : UserProfile)
    (policies : List Policy) (min_score : ℚ) (max_results : ℕ) :
    List MatchingResult :=
  ((candidate_results clock up policies min_score).insertionSort
    (fun a b => result_le a b = true)).take max_results

/-- The single-capture variant demanded by the specification: one date is
captured at the start of the pass and every program is judged against it. -/
def match_policies_at (now : PyDateTime) (up : UserProfile)
    (policies : List Policy) (min_score : ℚ) (max_results : ℕ) :
    List MatchingResult :=
  ((policies.filterMap fun p =>
      let sr := calculate_score now up p
      if min_score ≤ sr.1 then some (mk_result p sr) else none).insertionSort
    (fun a b => result_le a b = true)).take max_results

/-! ### Properties of the sort-key order -/

theorem lexLe_total (l1 l2 : List Char) : lexLe l1 l2 = true ∨ lexLe l2 l1 = true := by
  induction l1 generalizing l2 with
  | nil => left; rfl
  | cons c cs ih =>
    cases l2 with
    | nil => right; rfl
    | cons d ds =>
      rcases Nat.lt_trichotomy c.toNat d.toNat with h | h | h
      · left; simp [lexLe, h]
      · rcases ih ds with h2 | h2
        · left; simp [lexLe, h, h2]
        · right; simp [lexLe, h.symm, h2]
      · right; simp [lexLe, h]

theorem lexLe_trans {l1 l2 l3 : List Char} (h12 : lexLe l1 l2 = true)
    (h23 : lexLe l2 l3 = true) : lexLe l1 l3 = true := by
  induction l1 generalizing l2 l3 with
  | nil => rfl
  | cons c cs ih =>
    cases l2 with
    | nil => simp [lexLe] at h12
    | cons d ds =>
      cases l3 with
      | nil => simp [lexLe] at h23
      | cons e es =>
        simp only [lexLe] at h12 h23 ⊢
        by_cases hcd : c.toNat < d.toNat
        · by_cases hde : d.toNat < e.toNat
          · simp [show c.toNat < e.toNat from by omega]
          · by_cases hed : e.toNat < d.toNat
            · simp [hde, hed] at h23
            · simp [show c.toNat < e.toNat from by omega]
        · by_cases hdc : d.toNat < c.toNat
          · simp [hcd, hdc] at h12
          · by_cases hde : d.toNat < e.toNat
            · simp [show c.toNat < e.toNat from by omega]
            · by_cases hed : e.toNat < d.toNat
              · simp [hde, hed] at h23
              · have hce1 : ¬c.toNat < e.toNat := by omega
                have hce2 : ¬e.toNat < c.toNat := by omega
                simp only [hcd, hdc, hde, hed, hce1, hce2, if_false] at h12 h23 ⊢
                exact ih h12 h23

theorem result_le_iff (a b : MatchingResult) :
    result_le a b = true ↔
      b.score < a.score ∨ (a.score = b.score ∧
        lexLe (a.deadline.getD "").toList (b.deadline.getD "").toList = true) := by
  unfold result_le
  split_ifs with h1 h2
  · simp [h1]
  · simp only [Bool.false_eq_true, false_iff]
    rintro (h | ⟨heq, -⟩)
    · exact h1 h
    · rw [heq] at h2
      exact lt_irrefl _ h2
  · have heq : a.score = b.score := le_antisymm (not_lt.mp h1) (not_lt.mp h2)
    simp [heq, h1]

theorem result_le_total (a b : MatchingResult) :
    result_le a b = true ∨ result_le b a = true := by
  rcases lt_trichotomy a.score b.score with h | h | h
  · right; exact (result_le_iff b a).mpr (Or.inl h)
  · rcases lexLe_total (a.deadline.getD "").toList (b.deadline.getD "").toList with h2 | h2
    · left; exact (result_le_iff a b).mpr (Or.inr ⟨h, h2⟩)
    · right; exact (result_le_iff b a).mpr (Or.inr ⟨h.symm, h2⟩)
  · left; exact (result_le_iff a b).mpr (Or.inl h)

theorem result_le_trans {a b c : MatchingResult} (hab : result_le a b = true)
    (hbc : result_le b c = true) : result_le a c = true := by
  rw [result_le_iff] at hab hbc ⊢
  rcases hab with h1 | ⟨h1, h1l⟩ <;> rcases hbc with h2 | ⟨h2, h2l⟩
  · exact Or.inl (h2.trans h1)
  · exact Or.inl (by rw [← h2]; exact h1)
  · exact Or.inl (by rw [h1]; exact h2)
  · exact Or.inr ⟨h1.trans h2, lexLe_trans h1l h2l⟩

/-! ### Enumeration helpers -/

theorem mem_enumFrom_get (l : List Policy) (n i : ℕ) (h : i < l.length) :
    (n + i, l.get ⟨i, h⟩) ∈ l.enumFrom n := by
  induction l generalizing n i with
  | nil => exact absurd h (by simp)
  | cons p ps ih =>
    cases i with
    | zero => simp [List.enumFrom]
    | succ j =>
      have hj : j < ps.length := by simpa using h
      have := ih (n + 1) j hj
      simp only [List.enumFrom, List.mem_cons]
      right
      have harith : n + (j + 1) = n + 1 + j := by omega
      rw [harith]
      exact this

theorem mem_enum_get (l : List Policy) (i : ℕ) (h : i < l.length) :
    (i, l.get ⟨i, h⟩) ∈ l.enum := by
  have := mem_enumFrom_get l 0 i h
  simpa [List.enum] using this

theorem enumFrom_filterMap_snd {β : Type} (g : Policy → Option β) :
    ∀ (l : List Policy) (n : ℕ),
      (l.enumFrom n).filterMap (fun ip => g ip.2) = l.filterMap g := by
  intro l
  induction l with
  | nil => intro n; rfl
  | cons p ps ih =>
    intro n
    simp only [List.enumFrom, List.filterMap_cons]
    cases g p with
    | none => simpa using ih (n + 1)
    | some b => simpa using ih (n + 1)

/-! ### Bounds of the sub-scores -/

theorem check_age_match_score_bounds (a : ℤ) (mn mx : Option ℤ) :
    0 ≤ (check_age_match a mn mx).2 ∧ (check_age_match a mn mx).2 ≤ 10 := by
  unfold check_age_match
  simp only [condition_weights_age]
  split_ifs with h1 h2 h3 h4
  · norm_num
  · norm_num
  · -- the dead `max_distance0 = 0` guard replaces the divisor by 1
    constructor
    · have : (1 : ℚ) / 2 ≤ max (1 - |(a : ℚ) - ((age_p_min mn : ℚ) + (age_p_max mx : ℚ)) / 2| / 1) (1 / 2) :=
        le_max_right _ _
      nlinarith [this]
    · have hub : max (1 - |(a : ℚ) - ((age_p_min mn : ℚ) + (age_p_max mx : ℚ)) / 2| / 1) (1 / 2) ≤ 1 := by
        apply max_le
        · have := abs_nonneg ((a : ℚ) - ((age_p_min mn : ℚ) + (age_p_max mx : ℚ)) / 2)
          nlinarith
        · norm_num
      nlinarith [hub]
  · constructor
    · have : (1 : ℚ) / 2 ≤ max (1 - |(a : ℚ) - ((age_p_min mn : ℚ) + (age_p_max mx : ℚ)) / 2| /
          ((↑(age_p_max mx - age_p_min mn) : ℚ) / 2)) (1 / 2) := le_max_right _ _
      nlinarith [this]
    · have hmd : (0 : ℚ) < (↑(age_p_max mx - age_p_min mn) : ℚ) / 2 := by
        have hle : age_p_min mn ≤ age_p_max mx := le_trans h2.1 h2.2
        have hne : age_p_max mx - age_p_min mn ≠ 0 := h3
        have : (0 : ℤ) < age_p_max mx - age_p_min mn := by omega
        have : (0 : ℚ) < (↑(age_p_max mx - age_p_min mn) : ℚ) := by exact_mod_cast this
        linarith
      have hub : max (1 - |(a : ℚ) - ((age_p_min mn : ℚ) + (age_p_max mx : ℚ)) / 2| /
          ((↑(age_p_max mx - age_p_min mn) : ℚ) / 2)) (1 / 2) ≤ 1 := by
        apply max_le
        · have hd : 0 ≤ |(a : ℚ) - ((age_p_min mn : ℚ) + (age_p_max mx : ℚ)) / 2| := abs_nonneg _
          have : 0 ≤ |(a : ℚ) - ((age_p_min mn : ℚ) + (age_p_max mx : ℚ)) / 2| /
              ((↑(age_p_max mx - age_p_min mn) : ℚ) / 2) := div_nonneg hd (le_of_lt hmd)
          linarith
        · norm_num
      nlinarith [hub]
  · norm_num

theorem check_region_match_score_bounds (u : String) (rs : List String) :
    0 ≤ (check_region_match u rs).2 ∧ (check_region_match u rs).2 ≤ 10 := by
  simp only [check_region_match]
  cases List.find? (fun pr => normalize_region pr = normalize_region u) rs with
  | none => split_ifs <;> norm_num [condition_weights_region]
  | some pr => split_ifs <;> norm_num [condition_weights_region]

theorem check_income_match_score_bounds (u : ℤ) (pm : Option ℤ) :
    0 ≤ (check_income_match u pm).2 ∧ (check_income_match u pm).2 ≤ 10 := by
  cases pm with
  | none => simp [check_income_match, condition_weights_income]
  | some v =>
    simp only [check_income_match]
    split_ifs <;> norm_num [condition_weights_income]

theorem check_employment_match_score_bounds (u : String) (pe : List String) :
    0 ≤ (check_employment_match u pe).2 ∧ (check_employment_match u pe).2 ≤ 10 := by
  simp only [check_employment_match]
  split_ifs <;> norm_num [condition_weights_employment]

theorem calculate_benefit_score_bounds (b : String) (bm : Option ℤ) :
    9 ≤ calculate_benefit_score b bm ∧ calculate_benefit_score b bm ≤ 30 := by
  simp only [calculate_benefit_score]
  split_ifs <;> norm_num [score_weights_benefit_size]

theorem ease_url_component_bounds (p : Policy) :
    0 ≤ ease_url_component p ∧ ease_url_component p ≤ 10 := by
  simp only [ease_url_component]
  split_ifs <;> norm_num [score_weights_ease_of_application]

theorem ease_deadline_component_bounds (now : PyDateTime) (p : Policy) :
    0 ≤ ease_deadline_component now p ∧ ease_deadline_component now p ≤ 10 := by
  simp only [ease_deadline_component]
  split_ifs <;> norm_num [score_weights_ease_of_application]

theorem ease_requirements_component_bounds (p : Policy) :
    0 ≤ ease_requirements_component p ∧ ease_requirements_component p ≤ 10 := by
  simp only [ease_requirements_component]
  cases p.requirements with
  | none => norm_num
  | some reqs =>
    dsimp only
    split_ifs <;> norm_num [score_weights_ease_of_application]

theorem calculate_ease_score_bounds (now : PyDateTime) (p : Policy) :
    0 ≤ calculate_ease_score now p ∧ calculate_ease_score now p ≤ 30 := by
  unfold calculate_ease_score
  constructor
  · apply le_min
    · have h1 := ease_url_component_bounds p
      have h2 := ease_deadline_component_bounds now p
      have h3 := ease_requirements_component_bounds p
      linarith [h1.1, h2.1, h3.1]
    · norm_num [score_weights_ease_of_application]
  · exact le_trans (min_le_right _ _) (by norm_num [score_weights_ease_of_application])

/-! ### Bounds of the one-decimal rounding -/

theorem round1_nonneg {q : ℚ} (h : 0 ≤ q) : 0 ≤ round1 q := by
  unfold round1
  apply div_nonneg _ (by norm_num)
  have : (0 : ℤ) ≤ ⌊q * 10 + 1 / 2⌋ := Int.floor_nonneg.mpr (by linarith)
  exact_mod_cast this

theorem round1_le_100 {q : ℚ} (h : q ≤ 100) : round1 q ≤ 100 := by
  unfold round1
  have h1 : ⌊q * 10 + 1 / 2⌋ ≤ ⌊(2001 : ℚ) / 2⌋ := Int.floor_mono (by linarith)
  have h2 : (⌊(2001 : ℚ) / 2⌋ : ℤ) = 1000 := by
    norm_num [Int.floor_eq_iff]
  rw [h2] at h1
  have : (⌊q * 10 + 1 / 2⌋ : ℚ) ≤ 1000 := by exact_mod_cast h1
  linarith

theorem round1_lb (q : ℚ) : q - 1 / 20 ≤ round1 q := by
  unfold round1
  have := Int.sub_one_lt_floor (q * 10 + 1 / 2)
  have h : q * 10 - 1 / 2 < (⌊q * 10 + 1 / 2⌋ : ℚ) := by linarith
  linarith

theorem round1_ub (q : ℚ) : round1 q ≤ q + 1 / 20 := by
  unfold round1
  have := Int.floor_le (q * 10 + 1 / 2)
  linarith

/-! ### Concrete fixtures used by witnesses and counterexamples -/

/-- A reference date used by concrete instantiations. -/
def d2025_06_01 : PyDateTime := ⟨2025, 6, 1, 0⟩

/-- A second reference date, one month later. -/
def d2025_07_01 : PyDateTime := ⟨2025, 7, 1, 0⟩

/-- A fixture profile. -/
def prof_fix : UserProfile := ⟨25, "서울", 3000, "구직자"⟩

/-- A fixture policy whose deadline text lies in the past of `d2025_06_01`. -/
def pol_expired : Policy :=
  ⟨"X", "", "", none, none, [], [], none, "", none, some "2024-01-31", none, none, none⟩

/-! ### C1 -/

/-- C1: for every profile and every program whose deadline text the Deadline
Analyzer judges expired at the current date, `calculate_score` returns exactly
score `0` with the single deadline-passed reason, regardless of every other
profile and program field (the embedding is a total function, so no exception
can escape). -/
theorem C1_expired_deadline_scores_zero (now : PyDateTime) (up : UserProfile)
    (p : Policy) (h : is_deadline_expired now (p.deadline.getD "") = true) :
    calculate_score now up p = (0, ["❌ 신청 마감됨"]) := by
  simp [calculate_score, h]

/-- C1 witness: the hypothesis holds and the conclusion follows at a concrete
expired program. -/
theorem C1_expired_deadline_scores_zero_witness :
    is_deadline_expired d2025_06_01 ((pol_expired).deadline.getD "") = true ∧
    calculate_score d2025_06_01 prof_fix pol_expired = (0, ["❌ 신청 마감됨"]) :=
  ⟨by decide, C1_expired_deadline_scores_zero d2025_06_01 prof_fix pol_expired (by decide)⟩

/-! ### C2 -/

/-- C2: for every current date, profile and program, the score returned by
`calculate_score` lies in the closed interval [0, 100]. -/
theorem C2_score_in_unit_interval (now : PyDateTime) (up : UserProfile) (p : Policy) :
    0 ≤ (calculate_score now up p).1 ∧ (calculate_score now up p).1 ≤ 100 := by
  have ha := check_age_match_score_bounds up.age p.target_age_min p.target_age_max
  have hr := check_region_match_score_bounds up.region p.target_regions
  have hi := check_income_match_score_bounds up.income p.target_income_max
  have he := check_employment_match_score_bounds up.employment p.target_employment
  have hb := calculate_benefit_score_bounds p.benefit p.budget_max
  have hs := calculate_ease_score_bounds now p
  unfold calculate_score
  split_ifs <;>
    first
    | (norm_num
       done)
    | exact ⟨round1_nonneg (by linarith [ha.1, hr.1, hi.1, he.1, hb.1, hs.1]),
        round1_le_100 (by linarith [ha.2, hr.2, hi.2, he.2, hb.2, hs.2])⟩

/-! ### C9 -/

/-- C9: the amount extractor maps the three fixed fixtures to 3000, 10000 and
600 respectively, and returns 0 on any text in which none of the five
numeric-plus-unit patterns matches. -/
theorem C9_amount_extraction_fixtures (t : String)
    (h1 : searchAmt "" "만원" t.toList = none)
    (h2 : searchAmt "" "억" t.toList = none)
    (h3 : searchAmt "최대" "만원" t.toList = none)
    (h4 : searchAmt "월" "만원" t.toList = none)
    (h5 : searchAmt "" "천만원" t.toList = none) :
    extract_amount_from_text "최대 3000만원 지급" = 3000 ∧
    extract_amount_from_text "1억 지원" = 10000 ∧
    extract_amount_from_text "월 50만원" = 600 ∧
    extract_amount_from_text t = 0 := by
  refine ⟨by decide, by decide, by decide, ?_⟩
  have h1d : searchAmt "" "만원" t.data = none := h1
  have h2d : searchAmt "" "억" t.data = none := h2
  have h3d : searchAmt "최대" "만원" t.data = none := h3
  have h4d : searchAmt "월" "만원" t.data = none := h4
  have h5d : searchAmt "" "천만원" t.data = none := h5
  simp [extract_amount_from_text, h1d, h2d, h3d, h4d, h5d]

/-- C9 witness: the no-pattern hypotheses hold at a concrete text and every
conclusion follows. -/
theorem C9_amount_extraction_fixtures_witness :
    extract_amount_from_text "최대 3000만원 지급" = 3000 ∧
    extract_amount_from_text "1억 지원" = 10000 ∧
    extract_amount_from_text "월 50만원" = 600 ∧
    extract_amount_from_text "지원금 있음" = 0 :=
  C9_amount_extraction_fixtures "지원금 있음" (by decide) (by decide) (by decide)
    (by decide) (by decide)

/-! ### C10 -/

/-- C10: when `application_url` is absent or empty and `website_url` is a
non-empty string, the URL block of the ease score awards the full 10-point
sub-budget, i.e. `website_url` substitutes for `application_url`. -/
theorem C10_website_url_substitutes (p : Policy) (w : String)
    (happ : p.application_url = none ∨ p.application_url = some "")
    (hweb : p.website_url = some w) (hw : w ≠ "") :
    ease_url_component p = 10 := by
  rcases happ with h | h <;>
    · simp [ease_url_component, h, hweb, hw, score_weights_ease_of_application]
      norm_num

/-- C10 witness: the hypotheses hold and the conclusion follows at a concrete
program carrying only a `website_url`. -/
theorem C10_website_url_substitutes_witness :
    (⟨"W", "", "", none, none, [], [], none, "", none, none, none, some "https://w",
        none⟩ : Policy).application_url = none ∧
    ease_url_component
      ⟨"W", "", "", none, none, [], [], none, "", none, none, none, some "https://w",
        none⟩ = 10 :=
  ⟨rfl, C10_website_url_substitutes _ "https://w" (Or.inl rfl) rfl (by decide)⟩

/-! ### C6 -/

/-- C6: once the deadline, age and region gates pass, the aggregator adds the
income / employment sub-score and reason exactly when the matcher reports
eligible and adds nothing on a mismatch, the program keeps its benefit and
ease scores, the total never falls below the age+region contribution already
accumulated, and the program is never excluded (its score stays positive). -/
theorem C6_soft_misses_never_exclude (now : PyDateTime) (up : UserProfile) (p : Policy)
    (hE : is_deadline_expired now (p.deadline.getD "") = false)
    (hA : (check_age_match up.age p.target_age_min p.target_age_max).1 = true)
    (hR : (check_region_match up.region p.target_regions).1 = true) :
    calculate_score now up p =
      (round1 ((check_age_match up.age p.target_age_min p.target_age_max).2
          + (check_region_match up.region p.target_regions).2
          + (if (check_income_match up.income p.target_income_max).1 then
              (check_income_match up.income p.target_income_max).2 else 0)
          + (if (check_employment_match up.employment p.target_employment).1 then
              (check_employment_match up.employment p.target_employment).2 else 0)
          + calculate_benefit_score p.benefit p.budget_max
          + calculate_ease_score now p),
        [age_reason_str p, region_reason_str p]
          ++ (if (check_income_match up.income p.target_income_max).1 then
                [income_reason_str p] else [])
          ++ (if (check_employment_match up.employment p.target_employment).1 then
                [employment_reason_str p] else [])
          ++ benefit_reasons (calculate_benefit_score p.benefit p.budget_max)
          ++ ease_reasons (calculate_ease_score now p)) ∧
    (check_age_match up.age p.target_age_min p.target_age_max).2
      + (check_region_match up.region p.target_regions).2 ≤ (calculate_score now up p).1 ∧
    0 < (calculate_score now up p).1 := by
  have heq : calculate_score now up p =
      (round1 ((check_age_match up.age p.target_age_min p.target_age_max).2
          + (check_region_match up.region p.target_regions).2
          + (if (check_income_match up.income p.target_income_max).1 then
              (check_income_match up.income p.target_income_max).2 else 0)
          + (if (check_employment_match up.employment p.target_employment).1 then
              (check_employment_match up.employment p.target_employment).2 else 0)
          + calculate_benefit_score p.benefit p.budget_max
          + calculate_ease_score now p),
        [age_reason_str p, region_reason_str p]
          ++ (if (check_income_match up.income p.target_income_max).1 then
                [income_reason_str p] else [])
          ++ (if (check_employment_match up.employment p.target_employment).1 then
                [employment_reason_str p] else [])
          ++ benefit_reasons (calculate_benefit_score p.benefit p.budget_max)
          ++ ease_reasons (calculate_ease_score now p)) := by
    simp [calculate_score, hE, hA, hR]
  have ha := check_age_match_score_bounds up.age p.target_age_min p.target_age_max
  have hr := check_region_match_score_bounds up.region p.target_regions
  have hi := check_income_match_score_bounds up.income p.target_income_max
  have he := check_employment_match_score_bounds up.employment p.target_employment
  have hb := calculate_benefit_score_bounds p.benefit p.budget_max
  have hs := calculate_ease_score_bounds now p
  have hi1 : 0 ≤ (if (check_income_match up.income p.target_income_max).1 then
      (check_income_match up.income p.target_income_max).2 else 0) := by
    split_ifs
    exacts [hi.1, le_refl 0]
  have he1 : 0 ≤ (if (check_employment_match up.employment p.target_employment).1 then
      (check_employment_match up.employment p.target_employment).2 else 0) := by
    split_ifs
    exacts [he.1, le_refl 0]
  refine ⟨heq, ?_, ?_⟩
  · rw [heq]
    dsimp only
    have := round1_lb ((check_age_match up.age p.target_age_min p.target_age_max).2
      + (check_region_match up.region p.target_regions).2
      + (if (check_income_match up.income p.target_income_max).1 then
          (check_income_match up.income p.target_income_max).2 else 0)
      + (if (check_employment_match up.employment p.target_employment).1 then
          (check_employment_match up.employment p.target_employment).2 else 0)
      + calculate_benefit_score p.benefit p.budget_max
      + calculate_ease_score now p)
    linarith [hb.1, hs.1]
  · rw [heq]
    dsimp only
    have := round1_lb ((check_age_match up.age p.target_age_min p.target_age_max).2
      + (check_region_match up.region p.target_regions).2
      + (if (check_income_match up.income p.target_income_max).1 then
          (check_income_match up.income p.target_income_max).2 else 0)
      + (if (check_employment_match up.employment p.target_employment).1 then
          (check_employment_match up.employment p.target_employment).2 else 0)
      + calculate_benefit_score p.benefit p.budget_max
      + calculate_ease_score now p)
    linarith [ha.1, hr.1, hb.1, hs.1]

/-- A fixture program against which `prof_fix` mismatches both the income
ceiling and the employment targeting while all three gates pass. -/
def pol_softmiss : Policy :=
  ⟨"E", "", "", none, none, [], ["재직자"], some 100, "", none, none, none, none, none⟩

/-- C6 witness: the three gate hypotheses hold at a concrete soft-missing
program, and its score stays positive. -/
theorem C6_soft_misses_never_exclude_witness :
    (check_income_match prof_fix.income pol_softmiss.target_income_max).1 = false ∧
    (check_employment_match prof_fix.employment pol_softmiss.target_employment).1 = false ∧
    0 < (calculate_score d2025_06_01 prof_fix pol_softmiss).1 :=
  ⟨by decide, by decide,
    (C6_soft_misses_never_exclude d2025_06_01 prof_fix pol_softmiss
      (by decide) (by decide) (by decide)).2.2⟩

/-! ### C5 -/

/-- C5 counterexample: with `target_age_min` absent and `target_age_max` set
to 100 — neither bound is "absent or 0", so the claim's unset clause does not
apply — the effective bounds are the sentinel pair (0, 100) and the matcher
returns eligible with the full budget for **every** age: age 150 lies outside
[0, 100] yet is not excluded (the claim demands `(false, 0)`), and age 25 lies
inside at distance 25 from the midpoint 50 yet receives 10 instead of the
claimed decayed score 5. -/
theorem C5_sentinel_bounds_counterexample :
    check_age_match 150 none (some 100) = (true, 10) ∧
    check_age_match 25 none (some 100) = (true, 10) ∧
    ¬(check_age_match 25 none (some 100)).2 = 5 :=
  ⟨by decide, by decide, by decide⟩

/-- C5 amended: the age matcher's contract over the **effective** bounds
(absent or non-positive min becomes 0, absent or non-positive max becomes
100).  Whenever the effective bounds are exactly the sentinel pair (0, 100) —
both bounds unset, but also e.g. a max explicitly set to 100 with an unset
min — the matcher returns eligible with the full 10-point budget regardless
of the age.  Otherwise, when the age lies inside the effective range the
matcher is eligible; its score is the linear decay clipped at the 50% floor,
equals the full budget at the range midpoint and for a single-point range,
equals exactly half the budget at the edges of a non-degenerate range, and
always lies between 50% and 100% of the budget.  Outside the effective range
the matcher returns (false, 0). -/
theorem C5_age_matcher_contract (a : ℤ) (mn mx : Option ℤ) :
    (age_p_min mn = 0 ∧ age_p_max mx = 100 →
      check_age_match a mn mx = (true, 10)) ∧
    (¬(age_p_min mn = 0 ∧ age_p_max mx = 100) →
      age_p_min mn ≤ a → a ≤ age_p_max mx →
      (check_age_match a mn mx).1 = true ∧
      5 ≤ (check_age_match a mn mx).2 ∧
      (check_age_match a mn mx).2 ≤ 10 ∧
      (2 * a = age_p_min mn + age_p_max mx → (check_age_match a mn mx).2 = 10) ∧
      (age_p_min mn = age_p_max mx → (check_age_match a mn mx).2 = 10) ∧
      (age_p_min mn < age_p_max mx →
        (check_age_match a mn mx).2 =
          10 * max (1 - |(a : ℚ) - ((age_p_min mn : ℚ) + (age_p_max mx : ℚ)) / 2| /
            (((age_p_max mx : ℚ) - (age_p_min mn : ℚ)) / 2)) (1 / 2)) ∧
      (age_p_min mn < age_p_max mx → (a = age_p_min mn ∨ a = age_p_max mx) →
        (check_age_match a mn mx).2 = 5)) ∧
    (¬(age_p_min mn = 0 ∧ age_p_max mx = 100) →
      ¬(age_p_min mn ≤ a ∧ a ≤ age_p_max mx) →
      check_age_match a mn mx = (false, 0)) := by
  refine ⟨?_, ?_, ?_⟩
  · rintro ⟨hm, hM⟩
    simp [check_age_match, hm, hM, condition_weights_age]
  · intro hne hlo hhi
    have hle : age_p_min mn ≤ age_p_max mx := le_trans hlo hhi
    rw [show check_age_match a mn mx =
        (if age_p_min mn = 0 ∧ age_p_max mx = 100 then (true, condition_weights_age)
         else if age_p_min mn ≤ a ∧ a ≤ age_p_max mx then
           (if age_p_max mx - age_p_min mn = 0 then (true, condition_weights_age)
            else (true, condition_weights_age *
              max (1 - |(a : ℚ) - ((age_p_min mn : ℚ) + (age_p_max mx : ℚ)) / 2| /
                (if ((age_p_max mx - age_p_min mn : ℤ) : ℚ) / 2 = 0 then 1
                 else ((age_p_max mx - age_p_min mn : ℤ) : ℚ) / 2)) (1 / 2)))
         else (false, 0)) from rfl]
    rw [if_neg hne, if_pos ⟨hlo, hhi⟩]
    by_cases hz : age_p_max mx - age_p_min mn = 0
    · rw [if_pos hz]
      have heq : age_p_min mn = age_p_max mx := by omega
      refine ⟨rfl, by norm_num [condition_weights_age], by norm_num [condition_weights_age],
        fun _ => by norm_num [condition_weights_age],
        fun _ => by norm_num [condition_weights_age],
        fun hlt => absurd heq (by omega),
        fun hlt _ => absurd heq (by omega)⟩
    · rw [if_neg hz]
      have hlt : age_p_min mn < age_p_max mx := by omega
      have hltQ : (age_p_min mn : ℚ) < (age_p_max mx : ℚ) := by exact_mod_cast hlt
      have hden : ((age_p_max mx - age_p_min mn : ℤ) : ℚ) / 2 ≠ 0 := by
        have : (0 : ℚ) < ((age_p_max mx - age_p_min mn : ℤ) : ℚ) := by
          have : (0 : ℤ) < age_p_max mx - age_p_min mn := by omega
          exact_mod_cast this
        positivity
      rw [if_neg hden]
      have hcast : ((age_p_max mx - age_p_min mn : ℤ) : ℚ) =
          (age_p_max mx : ℚ) - (age_p_min mn : ℚ) := by push_cast; ring
      have hdpos : (0 : ℚ) < ((age_p_max mx : ℚ) - (age_p_min mn : ℚ)) / 2 := by linarith
      have habs : 0 ≤ |(a : ℚ) - ((age_p_min mn : ℚ) + (age_p_max mx : ℚ)) / 2| := abs_nonneg _
      have hub : max (1 - |(a : ℚ) - ((age_p_min mn : ℚ) + (age_p_max mx : ℚ)) / 2| /
          (((age_p_max mx : ℚ) - (age_p_min mn : ℚ)) / 2)) (1 / 2) ≤ 1 := by
        apply max_le _ (by norm_num)
        have : 0 ≤ |(a : ℚ) - ((age_p_min mn : ℚ) + (age_p_max mx : ℚ)) / 2| /
            (((age_p_max mx : ℚ) - (age_p_min mn : ℚ)) / 2) := div_nonneg habs (le_of_lt hdpos)
        linarith
      have hlb : (1 : ℚ) / 2 ≤ max (1 - |(a : ℚ) - ((age_p_min mn : ℚ) + (age_p_max mx : ℚ)) / 2| /
          (((age_p_max mx : ℚ) - (age_p_min mn : ℚ)) / 2)) (1 / 2) := le_max_right _ _
      rw [hcast]
      refine ⟨rfl, ?_, ?_, ?_, ?_, ?_, ?_⟩
      · simp only [condition_weights_age]
        nlinarith [hlb]
      · simp only [condition_weights_age]
        nlinarith [hub]
      · intro hmid
        have hmidQ : (a : ℚ) = ((age_p_min mn : ℚ) + (age_p_max mx : ℚ)) / 2 := by
          have : ((2 * a : ℤ) : ℚ) = ((age_p_min mn + age_p_max mx : ℤ) : ℚ) := by
            exact_mod_cast congrArg (fun z : ℤ => (z : ℚ)) hmid
          push_cast at this
          linarith
        simp only [condition_weights_age]
        rw [hmidQ]
        simp only [sub_self, abs_zero, zero_div, sub_zero]
        rw [max_eq_left (by norm_num)]
        norm_num
      · intro heq
        exact absurd heq (by omega)
      · intro _
        rfl
      · rintro _ (hedge | hedge)
        · have hQ : (a : ℚ) = (age_p_min mn : ℚ) := by exact_mod_cast hedge
          have habs2 : |(a : ℚ) - ((age_p_min mn : ℚ) + (age_p_max mx : ℚ)) / 2| =
              ((age_p_max mx : ℚ) - (age_p_min mn : ℚ)) / 2 := by
            rw [hQ, abs_of_nonpos (by linarith)]
            ring
          simp only [condition_weights_age]
          rw [habs2, div_self (ne_of_gt hdpos)]
          rw [show (1 : ℚ) - 1 = 0 from by norm_num, max_eq_right (by norm_num)]
          norm_num
        · have hQ : (a : ℚ) = (age_p_max mx : ℚ) := by exact_mod_cast hedge
          have habs2 : |(a : ℚ) - ((age_p_min mn : ℚ) + (age_p_max mx : ℚ)) / 2| =
              ((age_p_max mx : ℚ) - (age_p_min mn : ℚ)) / 2 := by
            rw [hQ, abs_of_nonneg (by linarith)]
            ring
          simp only [condition_weights_age]
          rw [habs2, div_self (ne_of_gt hdpos)]
          rw [show (1 : ℚ) - 1 = 0 from by norm_num, max_eq_right (by norm_num)]
          norm_num
  · intro hne hout
    rw [show check_age_match a mn mx =
        (if age_p_min mn = 0 ∧ age_p_max mx = 100 then (true, condition_weights_age)
         else if age_p_min mn ≤ a ∧ a ≤ age_p_max mx then
           (if age_p_max mx - age_p_min mn = 0 then (true, condition_weights_age)
            else (true, condition_weights_age *
              max (1 - |(a : ℚ) - ((age_p_min mn : ℚ) + (age_p_max mx : ℚ)) / 2| /
                (if ((age_p_max mx - age_p_min mn : ℤ) : ℚ) / 2 = 0 then 1
                 else ((age_p_max mx - age_p_min mn : ℤ) : ℚ) / 2)) (1 / 2)))
         else (false, 0)) from rfl]
    rw [if_neg hne, if_neg hout]

/-- C5 amended witness: the contract instantiated at concrete inputs —
full budget under the sentinel effective bounds (both bounds unset, and a max
explicitly set to 100 at an out-of-range age), full budget at the midpoint of
10–30, half budget at the edge, exclusion outside the range. -/
theorem C5_age_matcher_contract_witness :
    check_age_match 7 none (some 0) = (true, 10) ∧
    check_age_match 150 none (some 100) = (true, 10) ∧
    (check_age_match 20 (some 10) (some 30)).2 = 10 ∧
    (check_age_match 10 (some 10) (some 30)).2 = 5 ∧
    check_age_match 50 (some 10) (some 30) = (false, 0) :=
  ⟨(C5_age_matcher_contract 7 none (some 0)).1 (by decide),
    (C5_age_matcher_contract 150 none (some 100)).1 (by decide),
    ((C5_age_matcher_contract 20 (some 10) (some 30)).2.1 (by decide) (by decide)
      (by decide)).2.2.2.1 (by decide),
    ((C5_age_matcher_contract 10 (some 10) (some 30)).2.1 (by decide) (by decide)
      (by decide)).2.2.2.2.2.2 (by decide) (Or.inl rfl),
    (C5_age_matcher_contract 50 (some 10) (some 30)).2.2 (by decide) (by decide)⟩

/-! ### C7 -/

/-- C7: the ranker returns at most `max_results` entries, none strictly below
`min_score`; a program scoring exactly `min_score` (or more) is retained by
the filter; truncation happens after sorting; and the source defaults are
40.0 and 10. -/
theorem C7_ranker_filter_truncate (clock : ℕ → PyDateTime) (up : UserProfile)
    (policies : List Policy) (min_score : ℚ) (max_results : ℕ) :
    (match_policies clock up policies min_score max_results).length ≤ max_results ∧
    (∀ r ∈ match_policies clock up policies min_score max_results, min_score ≤ r.score) ∧
    match_policies clock up policies min_score max_results =
      ((candidate_results clock up policies min_score).insertionSort
        (fun a b => result_le a b = true)).take max_results ∧
    (∀ i (h : i < policies.length),
      min_score ≤ (calculate_score (clock i) up (policies.get ⟨i, h⟩)).1 →
      mk_result (policies.get ⟨i, h⟩) (calculate_score (clock i) up (policies.get ⟨i, h⟩))
        ∈ candidate_results clock up policies min_score) ∧
    default_min_score = 40 ∧ default_max_results = 10 := by
  refine ⟨List.length_take_le _ _, ?_, rfl, ?_, rfl, rfl⟩
  · intro r hr
    have hr2 := List.take_subset max_results _ hr
    have hr3 := (List.perm_insertionSort
      (fun a b : MatchingResult => result_le a b = true) _).subset hr2
    unfold candidate_results at hr3
    rw [List.mem_filterMap] at hr3
    obtain ⟨ip, _, hf⟩ := hr3
    dsimp only at hf
    by_cases hq : min_score ≤ (calculate_score (clock ip.1) up ip.2).1
    · rw [if_pos hq] at hf
      have := Option.some.inj hf
      rw [← this]
      exact hq
    · rw [if_neg hq] at hf
      exact absurd hf (by simp)
  · intro i h hsc
    unfold candidate_results
    rw [List.mem_filterMap]
    exact ⟨(i, policies.get ⟨i, h⟩), mem_enum_get policies i h, by
      dsimp only
      rw [if_pos hsc]⟩

/-- A program with every optional field absent; its total score is exactly
40 + 9 + 0 = 49. -/
def pol_allnone : Policy :=
  ⟨"D", "", "", none, none, [], [], none, "", none, none, none, none, none⟩

unseal Rat.add Rat.mul Rat.inv Rat.sub in
/-- C7 witness: at `min_score = 49` the all-default program scores exactly the
threshold and is retained by the filter, and the truncation bound holds. -/
theorem C7_ranker_filter_truncate_witness :
    (calculate_score d2025_06_01 prof_fix pol_allnone).1 = 49 ∧
    (match_policies (fun _ => d2025_06_01) prof_fix [pol_allnone] 49 10).length ≤ 10 ∧
    mk_result pol_allnone (calculate_score d2025_06_01 prof_fix pol_allnone)
      ∈ candidate_results (fun _ => d2025_06_01) prof_fix [pol_allnone] 49 :=
  ⟨by decide,
    (C7_ranker_filter_truncate (fun _ => d2025_06_01) prof_fix [pol_allnone] 49 10).1,
    (C7_ranker_filter_truncate (fun _ => d2025_06_01) prof_fix [pol_allnone] 49 10).2.2.2.1
      0 (by decide) (by decide)⟩

/-! ### C3 -/

/-- A light profile; every field is at its `.get` default. -/
def prof_min : UserProfile := ⟨0, "", 0, ""⟩

/-- A program with no deadline but an application URL; it scores 69. -/
def pol_nodl : Policy :=
  ⟨"A", "", "", none, none, [], [], none, "", none, none, some "u", none, some []⟩

/-- A program with an ongoing-keyword deadline and no URL; it also scores 69. -/
def pol_ongoing : Policy :=
  ⟨"B", "", "", none, none, [], [], none, "", none, some "상시", none, none, some []⟩

unseal Rat.add Rat.mul Rat.inv Rat.sub in
/-- C3 counterexample: two programs tie at score 69, and the ranked output
places the entry with **no** deadline first — `None` is replaced by the empty
string, which is lexically smallest — refuting the claim that no-deadline
entries sort last among ties (the input order is the opposite, so stable
sorting cannot explain the position). -/
theorem C3_no_deadline_sorts_first_counterexample :
    (match_policies (fun _ => d2025_06_01) prof_min [pol_ongoing, pol_nodl] 40 10).map
      (fun r => (r.score, r.deadline)) = [(69, none), (69, some "상시")] := by
  decide

/-- C3 amended: the ranked output is sorted by descending score with ties
broken by lexically ascending deadline string, where a missing deadline is
replaced by the empty string — and therefore sorts first, not last, among
ties. -/
theorem C3_sorted_desc_score_deadline_asc (clock : ℕ → PyDateTime) (up : UserProfile)
    (policies : List Policy) (min_score : ℚ) (max_results : ℕ) :
    List.Pairwise (fun a b : MatchingResult =>
      b.score < a.score ∨ (a.score = b.score ∧
        lexLe (a.deadline.getD "").toList (b.deadline.getD "").toList = true))
      (match_policies clock up policies min_score max_results) := by
  have hs := @List.sorted_insertionSort MatchingResult
    (fun a b => result_le a b = true) _ ⟨result_le_total⟩
    ⟨fun _ _ _ => result_le_trans⟩ (candidate_results clock up policies min_score)
  have hp : List.Pairwise (fun a b : MatchingResult => result_le a b = true)
      (match_policies clock up policies min_score max_results) :=
    List.Pairwise.sublist (List.take_sublist _ _) hs
  exact hp.imp (fun hab => (result_le_iff _ _).mp hab)

/-! ### C4 -/

/-- A clock that advances between the first and the second per-program read,
as the wall clock can during a real ranking pass. -/
def drift_clock : ℕ → PyDateTime :=
  fun i => if i = 0 then d2025_06_01 else d2025_07_01

/-- A program whose deadline text parses to 2025-06-30. -/
def pol_june : Policy :=
  ⟨"C", "", "", none, none, [], [], none, "", none, some "2025-06-30", none, none, none⟩

unseal Rat.add Rat.mul Rat.inv Rat.sub in
/-- C4 counterexample: the same program listed twice is judged against two
different current dates inside one ranking pass — one copy scores 57, the
other is expired at 0 — while under either constant clock both copies score
identically, so no single captured date reproduces the pass. -/
theorem C4_per_program_clock_counterexample :
    (match_policies drift_clock prof_min [pol_june, pol_june] 0 10).map
      (fun r => r.score) = [57, 0] ∧
    (match_policies (fun _ => d2025_06_01) prof_min [pol_june, pol_june] 0 10).map
      (fun r => r.score) = [57, 57] ∧
    (match_policies (fun _ => d2025_07_01) prof_min [pol_june, pol_june] 0 10).map
      (fun r => r.score) = [0, 0] :=
  ⟨by decide, by decide, by decide⟩

/-- C4 amended: the current date is read anew while each program is scored
(program `i` sees the `i`-th read); only when the clock does not advance
during the pass does the pass coincide with the single-capture semantics the
specification demands — and then the whole pass is a pure function of that
one date. -/
theorem C4_constant_clock_single_capture (now : PyDateTime) (clock : ℕ → PyDateTime)
    (up : UserProfile) (policies : List Policy) (min_score : ℚ) (max_results : ℕ)
    (h : ∀ i, clock i = now) :
    match_policies clock up policies min_score max_results =
      match_policies_at now up policies min_score max_results := by
  unfold match_policies match_policies_at
  have hfg : (fun ip : ℕ × Policy =>
      let sr := calculate_score (clock ip.1) up ip.2
      if min_score ≤ sr.1 then some (mk_result ip.2 sr) else none) =
      (fun ip : ℕ × Policy =>
        let sr := calculate_score now up ip.2
        if min_score ≤ sr.1 then some (mk_result ip.2 sr) else none) :=
    funext fun ip => by rw [h ip.1]
  have hc : candidate_results clock up policies min_score =
      policies.filterMap (fun p =>
        let sr := calculate_score now up p
        if min_score ≤ sr.1 then some (mk_result p sr) else none) := by
    unfold candidate_results
    rw [hfg]
    show (policies.enumFrom 0).filterMap _ = _
    exact enumFrom_filterMap_snd (fun p =>
      let sr := calculate_score now up p
      if min_score ≤ sr.1 then some (mk_result p sr) else none) policies 0
  rw [hc]

/-- C4 amended witness: a constant clock instantiation of the single-capture
equivalence. -/
theorem C4_constant_clock_single_capture_witness :
    match_policies (fun _ => d2025_06_01) prof_min [pol_june] 0 10 =
      match_policies_at d2025_06_01 prof_min [pol_june] 0 10 :=
  C4_constant_clock_single_capture d2025_06_01 (fun _ => d2025_06_01) prof_min
    [pol_june] 0 10 (fun _ => rfl)

/-! ### C8 -/

/-- A program whose deadline text is present but empty. -/
def pol_empty_deadline : Policy :=
  ⟨"N", "", "", none, none, [], [], none, "", none, some "", none, none, none⟩

unseal Rat.add Rat.mul Rat.inv Rat.sub in
/-- C8 counterexample: a program with an empty deadline text receives 0 from
the deadline-urgency block of the ease score — not one of the four claimed
tiers and strictly less than the claimed 40% minimum of the sub-budget. -/
theorem C8_empty_deadline_counterexample :
    ease_deadline_component d2025_06_01 pol_empty_deadline = 0 ∧
    ¬(score_weights_ease_of_application / 3 * (4 / 10) ≤
        ease_deadline_component d2025_06_01 pol_empty_deadline) :=
  ⟨by decide, by decide⟩

/-- C8 amended: for a program with a **non-empty** deadline text the
deadline-urgency block is exactly one of the four tiers — full 10 for an
ongoing keyword, 8 for far, 4 for near, 6 otherwise — and always at least 40%
of the 10-point sub-budget; an empty deadline text receives 0 instead. -/
theorem C8_deadline_urgency_tiers (now : PyDateTime) (p : Policy) :
    (p.deadline.getD "" = "" → ease_deadline_component now p = 0) ∧
    (p.deadline.getD "" ≠ "" →
      4 ≤ ease_deadline_component now p ∧
      (ease_deadline_component now p = 10 ∨ ease_deadline_component now p = 8 ∨
        ease_deadline_component now p = 6 ∨ ease_deadline_component now p = 4) ∧
      ((["상시", "연중", "수시"].any fun w => strContains (p.deadline.getD "") w) = true →
        ease_deadline_component now p = 10) ∧
      ((["상시", "연중", "수시"].any fun w => strContains (p.deadline.getD "") w) = false →
        is_deadline_far (p.deadline.getD "") = true →
        ease_deadline_component now p = 8) ∧
      ((["상시", "연중", "수시"].any fun w => strContains (p.deadline.getD "") w) = false →
        is_deadline_far (p.deadline.getD "") = false →
        is_deadline_soon now (p.deadline.getD "") = true →
        ease_deadline_component now p = 4) ∧
      ((["상시", "연중", "수시"].any fun w => strContains (p.deadline.getD "") w) = false →
        is_deadline_far (p.deadline.getD "") = false →
        is_deadline_soon now (p.deadline.getD "") = false →
        ease_deadline_component now p = 6)) := by
  constructor
  · intro h
    simp [ease_deadline_component, h]
  · intro h
    simp only [ease_deadline_component, if_neg h]
    split_ifs with ho hf hs2
    · refine ⟨by norm_num [score_weights_ease_of_application],
        Or.inl (by norm_num [score_weights_ease_of_application]),
        fun _ => by norm_num [score_weights_ease_of_application],
        fun hno _ => absurd ho (by simp [hno]),
        fun hno _ _ => absurd ho (by simp [hno]),
        fun hno _ _ => absurd ho (by simp [hno])⟩
    · refine ⟨by norm_num [score_weights_ease_of_application],
        Or.inr (Or.inl (by norm_num [score_weights_ease_of_application])),
        fun hyes => absurd hyes (by simp [ho]),
        fun _ _ => by norm_num [score_weights_ease_of_application],
        fun _ hnf _ => absurd hf (by simp [hnf]),
        fun _ hnf _ => absurd hf (by simp [hnf])⟩
    · refine ⟨by norm_num [score_weights_ease_of_application],
        Or.inr (Or.inr (Or.inr (by norm_num [score_weights_ease_of_application]))),
        fun hyes => absurd hyes (by simp [ho]),
        fun _ hfar => absurd hfar (by simp [hf]),
        fun _ _ _ => by norm_num [score_weights_ease_of_application],
        fun _ _ hns => absurd hs2 (by simp [hns])⟩
    · refine ⟨by norm_num [score_weights_ease_of_application],
        Or.inr (Or.inr (Or.inl (by norm_num [score_weights_ease_of_application]))),
        fun hyes => absurd hyes (by simp [ho]),
        fun _ hfar => absurd hfar (by simp [hf]),
        fun _ _ hsoon => absurd hsoon (by simp [hs2]),
        fun _ _ _ => by norm_num [score_weights_ease_of_application]⟩

/-- C8 amended witness: the ongoing tier awards the full sub-budget at a
concrete program, and a concrete empty-deadline program receives 0. -/
theorem C8_deadline_urgency_tiers_witness :
    ease_deadline_component d2025_06_01 pol_ongoing = 10 ∧
    ease_deadline_component d2025_06_01 pol_empty_deadline = 0 :=
  ⟨((C8_deadline_urgency_tiers d2025_06_01 pol_ongoing).2 (by decide)).2.2.1 (by decide),
    (C8_deadline_urgency_tiers d2025_06_01 pol_empty_deadline).1 (by decide)⟩

end Agent3
